import Mathlib

/-!
Verification of `src/services/file_management.py`.

The module has two functions:
  * `get_extension_from_url` — derives a file extension from a URL path
    (via `urllib.parse.urlparse` and `os.path.splitext`), falling back to a
    `HEAD` probe of the content type (via `requests.head` and
    `mimetypes.guess_extension`), and raises `ValueError` otherwise;
  * `download_file` — creates the storage directory, rewrites an external
    MinIO URL prefix to the internal one, resolves the extension, issues a
    streamed `GET`, writes the body in chunks, and on any error deletes the
    partially written file and re-raises.

Strings are modelled as `List Char` (`Str`).  External effects — the `HEAD`
probe, the `mimetypes` table, the `GET` request, write failures and the
filesystem — are modelled as explicit parameters / oracle values, so each
run of `download_file` is a pure function of those inputs.
-/

/-- Strings of the model: Python `str` as a list of characters. -/
abbrev Str := List Char

/-- Coercion from Lean string literals into the model's strings. -/
def str (s : String) : Str := s.data

/-- Association-list lookup with decidable key equality: Python `dict`
lookup / `dict.get` on a dict whose items are listed in insertion order. -/
def alookup {κ α : Type} [DecidableEq κ] (k : κ) : List (κ × α) → Option α
  | [] => none
  | e :: es => if e.1 = k then some e.2 else alookup k es

/-- Remove every entry with the given key. -/
def eraseKey {κ α : Type} [DecidableEq κ] (p : κ) : List (κ × α) → List (κ × α)
  | [] => []
  | e :: es => if e.1 = p then eraseKey p es else e :: eraseKey p es

/-- Index of the last occurrence of `c`, Python `s.rfind(c)` (as `Option`,
`none` for Python's `-1`). -/
def rfindIdx (c : Char) : Str → Option Nat
  | [] => none
  | x :: xs =>
    match rfindIdx c xs with
    | some n => some (n + 1)
    | none => if x = c then some 0 else none

/-- Model of Python `str.lower` for the characters the module manipulates
(ASCII letters; other characters are returned unchanged, matching CPython
on ASCII input). -/
def lowerStr (s : Str) : Str := s.map Char.toLower

/-- A string with no ASCII uppercase letter, the sense in which the
results of the module are lowercase. -/
def isLowerStr (l : Str) : Prop := ∀ c ∈ l, ¬ (65 ≤ c.toNat ∧ c.toNat ≤ 90)

instance (l : Str) : Decidable (isLowerStr l) := by
  unfold isLowerStr; infer_instance


/-- Start of the final path segment: one past the last `'/'`
(`sepIndex + 1` in CPython `genericpath._splitext`). -/
def fnameIndex (p : Str) : Nat :=
  match rfindIdx '/' p with
  | none => 0
  | some s => s + 1

/-- Model of CPython `posixpath.splitext` (`os.path.splitext` on POSIX):
split at the last `'.'` of the final path segment, unless every character
of that segment before the last `'.'` is itself a `'.'` (leading dots do
not start an extension).  The guard of CPython, `dotIndex > sepIndex`
with `-1` for a missing separator, is subsumed: when it fails the scanned
range below is empty. -/
def pySplitext (p : Str) : Str × Str :=
  match rfindIdx '.' p with
  | none => (p, [])
  | some d =>
    if (List.range' (fnameIndex p) (d - fnameIndex p)).any
        (fun j => decide (p.getD j '.' ≠ '.')) then
      (p.take d, p.drop d)
    else (p, [])

/-- Characters CPython's `urlsplit` strips from the URL before parsing
(`_UNSAFE_URL_BYTES_TO_REMOVE = ["\t", "\r", "\n"]`). -/
def removeUnsafe (s : Str) : Str :=
  s.filter (fun c => decide (c ≠ '\t' ∧ c ≠ '\r' ∧ c ≠ '\n'))

/-- Characters allowed in a URL scheme (`scheme_chars` in CPython
`urllib.parse`): ASCII letters, digits, `'+'`, `'-'`, `'.'`. -/
def schemeChar (c : Char) : Bool :=
  (65 ≤ c.toNat && c.toNat ≤ 90) || (97 ≤ c.toNat && c.toNat ≤ 122) ||
  (48 ≤ c.toNat && c.toNat ≤ 57) || c = '+' || c = '-' || c = '.'

/-- Does the string start with an ASCII letter (`url[0].isascii() and
url[0].isalpha()` in CPython `urlsplit`)? -/
def startsAsciiAlpha (u : Str) : Bool :=
  match u.head? with
  | some c => (65 ≤ c.toNat && c.toNat ≤ 90) || (97 ≤ c.toNat && c.toNat ≤ 122)
  | none => false

/-- Scheme-splitting step of CPython `urlsplit`: if the part before the
first `':'` is non-empty, starts with an ASCII letter and consists of
scheme characters, drop `scheme:`; otherwise leave the URL unchanged. -/
def splitScheme (u : Str) : Str :=
  match List.findIdx? (fun c => c = ':') u with
  | none => u
  | some i =>
    if 0 < i ∧ startsAsciiAlpha u ∧ (u.take i).all schemeChar then
      u.drop (i + 1)
    else u

/-- Where the netloc ends: the index of the first of `'/'`, `'?'`, `'#'`
(`_splitnetloc` in CPython), or the whole string. -/
def netlocCut (rest : Str) : Nat :=
  match List.findIdx? (fun c => c = '/' || c = '?' || c = '#') rest with
  | none => rest.length
  | some i => i

/-- The netloc itself: the part of `u.drop 2` before the cut. -/
def netlocOf (u : Str) : Str := (u.drop 2).take (netlocCut (u.drop 2))

/-- Netloc-splitting step of CPython `urlsplit`: when the remainder starts
with `//`, the netloc runs up to the first of `'/'`, `'?'`, `'#'`; a netloc
containing `'['` without `']'` (or vice versa) raises
`ValueError("Invalid IPv6 URL")`. Returns the part after the netloc. -/
def splitNetloc (u : Str) : Except Str Str :=
  if u.take 2 = str "//" then
    if ('[' ∈ netlocOf u ∧ ']' ∉ netlocOf u) ∨ (']' ∈ netlocOf u ∧ '[' ∉ netlocOf u) then
      Except.error (str "Invalid IPv6 URL")
    else
      Except.ok ((u.drop 2).drop (netlocCut (u.drop 2)))
  else Except.ok u

/-- Fragment-stripping step of `urlsplit`: cut at the first `'#'`. -/
def stripFragment (u : Str) : Str :=
  match List.findIdx? (fun c => c = '#') u with
  | none => u
  | some i => u.take i

/-- Query-stripping step of `urlsplit`: cut at the first `'?'` (after the
fragment was removed). -/
def stripQuery (u : Str) : Str :=
  match List.findIdx? (fun c => c = '?') u with
  | none => u
  | some i => u.take i

/-- Params-splitting step of CPython `urlparse` (`_splitparams`): remove a
`;params` suffix of the last path segment — the first `';'` at or after the
last `'/'` (or the first `';'` at all when there is no `'/'`). -/
def splitParams (p : Str) : Str :=
  match rfindIdx '/' p with
  | some r =>
    (match List.findIdx? (fun c => c = ';') (p.drop r) with
     | some j => p.take (r + j)
     | none => p)
  | none =>
    (match List.findIdx? (fun c => c = ';') p with
     | some i => p.take i
     | none => p)

/-- Model of `urllib.parse.urlparse(url).path` as used by the module:
strip unsafe bytes, split off the scheme, split off the netloc (raising
`ValueError("Invalid IPv6 URL")` on mismatched brackets), strip the
fragment, then the query, then the params.  The NFKC netloc check of
CPython, which can only reject certain non-ASCII netlocs, is not modelled;
the bracketed-host validation added in CPython 3.11 is likewise version
specific and not modelled. -/
def urlparsePath (url : Str) : Except Str Str :=
  match splitNetloc (splitScheme (removeUnsafe url)) with
  | Except.error e => Except.error e
  | Except.ok rest => Except.ok (splitParams (stripQuery (stripFragment rest)))

instance {ε α : Type} [DecidableEq ε] [DecidableEq α] : DecidableEq (Except ε α) :=
  fun a b =>
    match a, b with
    | Except.ok x, Except.ok y =>
      if h : x = y then isTrue (by rw [h]) else isFalse (by intro hc; cases hc; exact h rfl)
    | Except.error x, Except.error y =>
      if h : x = y then isTrue (by rw [h]) else isFalse (by intro hc; cases hc; exact h rfl)
    | Except.ok _, Except.error _ => isFalse (by intro hc; cases hc)
    | Except.error _, Except.ok _ => isFalse (by intro hc; cases hc)

/-- Python exceptions observable from the module. -/
inductive PyErr where
  | valueError (msg : Str)
  | httpError (status : Nat)
  | requestError (tag : Nat)
  | osError (tag : Nat)
deriving Repr, DecidableEq

/-- Outcome of the `requests.head` probe inside `get_extension_from_url`:
either the call raises (any exception — timeout, connection failure, …) or
it returns a response whose `content-type` header is `contentType`
(`none` models an absent header). -/
inductive ProbeOutcome where
  | raised
  | response (contentType : Option Str)
deriving Repr, DecidableEq

/-- Python `"...".split(';')[0]`: the part before the first `';'`. -/
def beforeSemicolon (s : Str) : Str := s.takeWhile (fun c => decide (c ≠ ';'))

/-- The extension the content-type fallback of `get_extension_from_url`
produces, if any: take the `content-type` header (defaulting to the empty
string), drop any `;`-parameters, map it through the `mimetypes` table
(`guess`), and lowercase the result.  A raised probe yields `none`
(the bare `except: pass`). -/
def probeExtension (probe : ProbeOutcome) (guess : Str → Option Str) : Option Str :=
  match probe with
  | ProbeOutcome.raised => none
  | ProbeOutcome.response ct =>
    match guess (beforeSemicolon (ct.getD [])) with
    | some e => some (lowerStr e)
    | none => none

/-- Model of `get_extension_from_url(url)`.  `probe` is the outcome of the
`requests.head` call, `guess` the `mimetypes.guess_extension` table.
The `urlparse` call sits outside the `try`, so its `ValueError`
propagates. -/
def get_extension_from_url (probe : ProbeOutcome) (guess : Str → Option Str)
    (url : Str) : Except PyErr Str :=
  match urlparsePath url with
  | Except.error e => Except.error (PyErr.valueError e)
  | Except.ok path =>
    if path ≠ [] ∧ lowerStr (pySplitext path).2 ≠ [] then
      Except.ok (lowerStr (pySplitext path).2)
    else
      match probeExtension probe guess with
      | some e => Except.ok e
      | none =>
        Except.error (PyErr.valueError
          (str "Could not determine file extension from URL: " ++ url))

/-! ### The downloader: filesystem, headers, URL rewrite, `download_file` -/

/-- A string-to-string mapping: a Python `dict` as its items in insertion
order (keys are unique in any dict built by the interpreter). -/
abbrev Dict := List (Str × Str)

/-- The filesystem visible to `download_file`: the set of directories and
the files (path paired with byte content). -/
structure FS where
  dirs : List Str
  files : List (Str × List Nat)
deriving Repr, DecidableEq

/-- Model of `os.makedirs(path, exist_ok=True)`: ensure the directory
exists (creation of intermediate directories is not tracked). -/
def FS.mkdirs (fs : FS) (p : Str) : FS :=
  if p ∈ fs.dirs then fs else { fs with dirs := p :: fs.dirs }

/-- Model of `os.path.exists(path)` for the files of the model. -/
def FS.existsFile (fs : FS) (p : Str) : Bool := (alookup p fs.files).isSome

/-- Model of `os.remove(path)`. -/
def FS.removeFile (fs : FS) (p : Str) : FS :=
  { fs with files := eraseKey p fs.files }

/-- Model of `open(path, 'wb')` followed by writing `content`: create or
truncate the file at `path`. -/
def FS.writeFile (fs : FS) (p : Str) (content : List Nat) : FS :=
  { fs with files := (p, content) :: eraseKey p fs.files }

/-- The cleanup of the `except` block:
`if os.path.exists(local_filename): os.remove(local_filename)`. -/
def FS.removeIfExists (fs : FS) (p : Str) : FS :=
  if fs.existsFile p then fs.removeFile p else fs

/-- Model of `os.path.join(a, b)` (POSIX): `b` if `b` is absolute,
otherwise `a` and `b` joined with exactly one `'/'`. -/
def posixJoin (a b : Str) : Str :=
  if b.head? = some '/' then b
  else if a = [] ∨ a.getLast? = some '/' then a ++ b
  else a ++ '/' :: b

/-- Model of `d[k] = v` on a dict: replace the value of an existing key in
place, or append a new item. -/
def dictSet (d : Dict) (k v : Str) : Dict :=
  if (alookup k d).isSome then d.map (fun e => if e.1 = k then (k, v) else e)
  else d ++ [(k, v)]

/-- Model of `d.update(src)`: assign every item of `src` into `d`, in
order. -/
def pyDictUpdate (d src : Dict) : Dict :=
  src.foldl (fun acc e => dictSet acc e.1 e.2) d

/-- The fixed default headers of the module: the browser-like
`User-Agent`. -/
def defaultHeaders : Dict :=
  [(str "User-Agent",
    str "Mozilla/5.0 (Windows NT 10.0; Win64; x64) AppleWebKit/537.36 (KHTML, like Gecko) Chrome/91.0.4472.124 Safari/537.36")]

/-- The headers `download_file` sends with the `GET`:
`headers = {'User-Agent': ...}; if custom_headers: headers.update(custom_headers)`.
`none` models `custom_headers=None`; an empty dict is falsy, so the update
is skipped for it as well. -/
def requestHeaders (custom : Option Dict) : Dict :=
  match custom with
  | none => defaultHeaders
  | some c => if c ≠ [] then pyDictUpdate defaultHeaders c else defaultHeaders

/-- Model of `os.environ.get(k, default)` over an explicit environment. -/
def envGet (environ : Dict) (k d : Str) : Str := (alookup k environ).getD d

/-- Model of Python `s.replace(old, new, 1)`: replace the first
occurrence of `old` (if any) by `new`; an empty `old` matches at the very
start. -/
def pyReplaceOnce (old new : Str) : Str → Str
  | [] => if old.isPrefixOf [] then new else []
  | c :: cs =>
    if old.isPrefixOf (c :: cs) then new ++ (c :: cs).drop old.length
    else c :: pyReplaceOnce old new cs

/-- The URL rewrite of `download_file`: read `S3_PUBLIC_URL` (default
`http://78.46.146.79:9000`) and `S3_ENDPOINT_URL` (default
`http://minio:9000`) from the environment; if the URL starts with the
public address, replace that first occurrence by the internal one. -/
def rewriteUrl (environ : Dict) (url : Str) : Str :=
  let pubBase := envGet environ (str "S3_PUBLIC_URL") (str "http://78.46.146.79:9000")
  let intBase := envGet environ (str "S3_ENDPOINT_URL") (str "http://minio:9000")
  if pubBase.isPrefixOf url then pyReplaceOnce pubBase intBase url else url

/-- Outcome of the `requests.get(url, stream=True, headers=headers)`
call: either the call raises, or it returns a response with a status code
and a body delivered as the chunks of `iter_content(chunk_size=8192)`. -/
inductive GetOutcome where
  | netFail (e : PyErr)
  | response (status : Nat) (chunks : List (List Nat))
deriving Repr, DecidableEq

/-- Outcome of the file-write phase: the `open`/write loop succeeds, the
`open` itself raises, or some write raises after `n` chunks were
consumed. -/
inductive WriteOutcome where
  | ok
  | openFail (e : PyErr)
  | failAfter (n : Nat) (e : PyErr)
deriving Repr, DecidableEq

/-- The bytes the chunk loop writes: every non-empty chunk, in order
(`for chunk in ...: if chunk: f.write(chunk)`). -/
def chunksContent (chunks : List (List Nat)) : List Nat :=
  (chunks.filter (fun c => decide (c ≠ []))).flatten

/-- Model of `requests` `response.raise_for_status()`: it raises
`HTTPError` exactly for client errors (4xx) and server errors (5xx). -/
def raiseForStatus (status : Nat) : Option PyErr :=
  if 400 ≤ status ∧ status < 600 then some (PyErr.httpError status) else none

/-- Model of `download_file(url, storage_path, custom_headers)`.

External inputs are explicit: `environ` the process environment, `probe`
and `guess` the oracles of `get_extension_from_url`, `file_id` the
`str(uuid.uuid4())` value, `get` the outcome of the `GET` as a function of
the headers actually sent, `write` the outcome of the write phase, and
`fs` the filesystem at entry.  Returns the Python result (path or raised
exception) together with the filesystem afterwards. -/
def download_file (environ : Dict) (probe : ProbeOutcome)
    (guess : Str → Option Str) (file_id : Str) (get : Dict → GetOutcome)
    (write : WriteOutcome) (url storage_path : Str)
    (custom_headers : Option Dict) (fs : FS) : Except PyErr Str × FS :=
  let fs1 := fs.mkdirs storage_path
  let url1 := rewriteUrl environ url
  match get_extension_from_url probe guess url1 with
  | Except.error e => (Except.error e, fs1)
  | Except.ok ext =>
    let local_filename := posixJoin storage_path (file_id ++ ext)
    let headers := requestHeaders custom_headers
    match get headers with
    | GetOutcome.netFail e => (Except.error e, fs1.removeIfExists local_filename)
    | GetOutcome.response status chunks =>
      match raiseForStatus status with
      | some e => (Except.error e, fs1.removeIfExists local_filename)
      | none =>
        match write with
        | WriteOutcome.ok =>
          (Except.ok local_filename, fs1.writeFile local_filename (chunksContent chunks))
        | WriteOutcome.openFail e => (Except.error e, fs1.removeIfExists local_filename)
        | WriteOutcome.failAfter n e =>
          let fs2 := fs1.writeFile local_filename (chunksContent (chunks.take n))
          (Except.error e, fs2.removeIfExists local_filename)

/-- An empty filesystem for concrete runs. -/
def fs0 : FS := { dirs := [], files := [] }

/-! ### Object-level view of the header merge

Python dicts are mutable objects.  To talk about mutation of the
caller-supplied `custom_headers`, the header-building block of
`download_file` is also modelled over a store of dict objects addressed by
identity: `headers = {'User-Agent': ...}` allocates a fresh object, and
`headers.update(custom_headers)` modifies the receiver object only. -/

/-- A store of Python dict objects, addressed by object id. -/
structure DictStore where
  entries : List (Nat × Dict)
deriving Repr, DecidableEq

/-- An object id unused by the store. -/
def freshId (st : DictStore) : Nat :=
  (st.entries.map Prod.fst).foldr max 0 + 1

/-- Evaluate a dict literal: allocate a fresh object holding `d`. -/
def allocDict (st : DictStore) (d : Dict) : Nat × DictStore :=
  (freshId st, { entries := (freshId st, d) :: st.entries })

/-- Model of `target.update(src)` at object level: only the receiver
object is modified. -/
def storeUpdate (st : DictStore) (target src : Nat) : DictStore :=
  { entries := st.entries.map (fun e =>
      if e.1 = target then (e.1, pyDictUpdate e.2 ((alookup src st.entries).getD [])) else e) }

/-- The header block of `download_file` on the object store:
`headers = {'User-Agent': ...}` allocates a fresh dict; if
`custom_headers` is a truthy dict object, `headers.update(custom_headers)`
updates the fresh dict in place.  Returns the id of the headers object and
the store afterwards. -/
def mergeHeadersAlloc (st : DictStore) (custom : Option Nat) : Nat × DictStore :=
  match custom with
  | none => allocDict st defaultHeaders
  | some cid =>
    if (alookup cid (allocDict st defaultHeaders).2.entries).getD [] ≠ [] then
      ((allocDict st defaultHeaders).1,
        storeUpdate (allocDict st defaultHeaders).2 (allocDict st defaultHeaders).1 cid)
    else allocDict st defaultHeaders

/-- Did the `GET`/write phase of `download_file` fail, and with which
original exception?  Mirrors the failure structure of the `try` block:
`requests.get` raising, `raise_for_status` raising, or the write loop
raising.  `none` means the phase succeeds. -/
def fetchError (g : GetOutcome) (w : WriteOutcome) : Option PyErr :=
  match g with
  | GetOutcome.netFail e => some e
  | GetOutcome.response status _ =>
    match raiseForStatus status with
    | some e => some e
    | none =>
      match w with
      | WriteOutcome.ok => none
      | WriteOutcome.openFail e => some e
      | WriteOutcome.failAfter _ e => some e

/-- The property of CPython's `mimetypes.guess_extension` the module
relies on: every extension it returns is non-empty and starts with the
`'.'` separator (all keys of the `mimetypes` table do). -/
def goodGuess (guess : Str → Option Str) : Prop :=
  ∀ ct e, guess ct = some e → e ≠ [] ∧ e.head? = some '.'

/-- A concrete fragment of the `mimetypes` table, for concrete runs. -/
def guess0 : Str → Option Str := fun ct =>
  if ct = str "image/jpeg" then some (str ".jpg")
  else if ct = str "image/png" then some (str ".png")
  else none

/-- A concrete custom-headers dict, for concrete runs. -/
def customSample : Dict :=
  [(str "User-Agent", str "curl/8.0"), (str "Authorization", str "Bearer t")]

/-- A concrete dict store holding one custom-headers object, id 1. -/
def st9 : DictStore := { entries := [(1, customSample)] }

/-! ### Sanity checks of the embedding on concrete inputs -/

example : urlparsePath (str "http://x/a/b.PNG") = Except.ok (str "/a/b.PNG") := by decide
example : urlparsePath (str "http://x/a.png?q=1#f") = Except.ok (str "/a.png") := by decide
example : urlparsePath (str "http://x/a.png;v=1") = Except.ok (str "/a.png") := by decide
example : urlparsePath (str "http://[::1") = Except.error (str "Invalid IPv6 URL") := by decide
example : urlparsePath (str "http://host") = Except.ok [] := by decide
example : pySplitext (str "/a/b.PNG") = (str "/a/b", str ".PNG") := by decide
example : pySplitext (str "/file.") = (str "/file", str ".") := by decide
example : pySplitext (str "/.bashrc") = (str "/.bashrc", []) := by decide
example : pySplitext (str "/a/..b") = (str "/a/..b", []) := by decide
example : pySplitext (str "/download") = (str "/download", []) := by decide
example : get_extension_from_url ProbeOutcome.raised (fun _ => none) (str "http://x/a/b.PNG")
    = Except.ok (str ".png") := by decide

example :
    download_file [] ProbeOutcome.raised (fun _ => none) (str "u1")
      (fun _ => GetOutcome.response 200 [[104], [105]]) WriteOutcome.ok
      (str "http://host/a.bin") (str "/tmp/") none fs0
    = (Except.ok (str "/tmp/u1.bin"),
       { dirs := [str "/tmp/"], files := [(str "/tmp/u1.bin", [104, 105])] }) := by decide

example :
    download_file [] ProbeOutcome.raised (fun _ => none) (str "u1")
      (fun _ => GetOutcome.netFail (PyErr.requestError 0)) WriteOutcome.ok
      (str "http://host/a.bin") (str "/tmp/") none fs0
    = (Except.error (PyErr.requestError 0), { dirs := [str "/tmp/"], files := [] }) := by decide

example :
    rewriteUrl [] (str "http://78.46.146.79:9000/bucket/a.png")
    = str "http://minio:9000/bucket/a.png" := by decide

/-! ### Shared lemmas -/

theorem toNat_ofNat_valid (n : Nat) (h : n.isValidChar) : (Char.ofNat n).toNat = n := by
  rw [Char.ofNat, dif_pos h]; rfl

theorem toLower_toNat (c : Char) :
    (Char.toLower c).toNat = if 65 ≤ c.toNat ∧ c.toNat ≤ 90 then c.toNat + 32 else c.toNat := by
  unfold Char.toLower
  split
  · next h =>
    rw [if_pos ⟨h.1, h.2⟩]
    exact toNat_ofNat_valid _ (Or.inl (by omega))
  · next h =>
    rw [if_neg]
    intro hc
    exact h ⟨hc.1, hc.2⟩

theorem toLower_not_upper (c : Char) :
    ¬ (65 ≤ (Char.toLower c).toNat ∧ (Char.toLower c).toNat ≤ 90) := by
  rw [toLower_toNat]
  split <;> omega

theorem isLowerStr_lowerStr (l : Str) : isLowerStr (lowerStr l) := by
  intro c hc
  rcases List.mem_map.mp hc with ⟨a, _, rfl⟩
  exact toLower_not_upper a

theorem lowerStr_ne_nil {l : Str} (h : l ≠ []) : lowerStr l ≠ [] := by
  cases l with
  | nil => exact absurd rfl h
  | cons x xs => simp [lowerStr]

theorem head?_lowerStr_dot (t : Str) : (lowerStr ('.' :: t)).head? = some '.' := by
  simp [lowerStr]

theorem rfindIdx_drop {c : Char} {l : Str} {n : Nat} (h : rfindIdx c l = some n) :
    ∃ t, l.drop n = c :: t := by
  induction l generalizing n with
  | nil => simp [rfindIdx] at h
  | cons x xs ih =>
    rw [rfindIdx] at h
    cases hm : rfindIdx c xs with
    | some m =>
      rw [hm] at h
      cases h
      exact ih hm
    | none =>
      rw [hm] at h
      by_cases hx : x = c
      · rw [if_pos hx] at h
        cases h
        exact ⟨xs, by rw [hx]; simp⟩
      · rw [if_neg hx] at h
        cases h

theorem rfindIdx_append_last (c : Char) (l : Str) :
    rfindIdx c (l ++ [c]) = some l.length := by
  induction l with
  | nil => simp [rfindIdx]
  | cons x xs ih => simp [rfindIdx, ih]

theorem pySplitext_nil : pySplitext [] = ([], []) := rfl

theorem pySplitext_cases (p : Str) :
    (pySplitext p).2 = [] ∨
      ∃ d, rfindIdx '.' p = some d ∧ (pySplitext p).2 = p.drop d := by
  unfold pySplitext
  cases hd : rfindIdx '.' p with
  | none => exact Or.inl rfl
  | some d =>
    by_cases hc : ((List.range' (fnameIndex p) (d - fnameIndex p)).any
        (fun j => decide (p.getD j '.' ≠ '.'))) = true
    · simp only [if_pos hc]
      exact Or.inr ⟨d, rfl, rfl⟩
    · simp only [if_neg hc]
      exact Or.inl trivial

theorem pySplitext_snd_head {p : Str} (h : (pySplitext p).2 ≠ []) :
    ∃ t, (pySplitext p).2 = '.' :: t := by
  rcases pySplitext_cases p with h0 | ⟨d, hd, he⟩
  · exact absurd h0 h
  · rw [he]
    exact rfindIdx_drop hd

theorem alookup_eraseKey_self {κ α : Type} [DecidableEq κ] (p : κ) (l : List (κ × α)) :
    alookup p (eraseKey p l) = none := by
  induction l with
  | nil => rfl
  | cons e es ih =>
    rw [eraseKey]
    by_cases he : e.1 = p
    · rw [if_pos he]; exact ih
    · rw [if_neg he, alookup, if_neg he]; exact ih

theorem alookup_eraseKey_ne {κ α : Type} [DecidableEq κ] {q p : κ} (h : q ≠ p)
    (l : List (κ × α)) : alookup q (eraseKey p l) = alookup q l := by
  induction l with
  | nil => rfl
  | cons e es ih =>
    rw [eraseKey, alookup]
    by_cases he : e.1 = p
    · rw [if_pos he, if_neg (by rw [he]; exact fun hc => h hc.symm), ih]
    · rw [if_neg he, alookup]
      by_cases hq : e.1 = q
      · rw [if_pos hq, if_pos hq]
      · rw [if_neg hq, if_neg hq, ih]

theorem FS.existsFile_removeIfExists (fs : FS) (p : Str) :
    (fs.removeIfExists p).existsFile p = false := by
  rw [FS.removeIfExists]
  by_cases h : fs.existsFile p = true
  · rw [if_pos h]
    simp [FS.existsFile, FS.removeFile, alookup_eraseKey_self]
  · rw [if_neg h]
    simpa using h

theorem FS.dirs_removeIfExists (fs : FS) (p : Str) :
    (fs.removeIfExists p).dirs = fs.dirs := by
  rw [FS.removeIfExists]
  split <;> rfl

theorem FS.dirs_writeFile (fs : FS) (p : Str) (c : List Nat) :
    (fs.writeFile p c).dirs = fs.dirs := rfl

theorem FS.files_mkdirs (fs : FS) (p : Str) : (fs.mkdirs p).files = fs.files := by
  rw [FS.mkdirs]; split <;> rfl

theorem FS.mem_dirs_mkdirs (fs : FS) (p : Str) : p ∈ (fs.mkdirs p).dirs := by
  rw [FS.mkdirs]
  split
  · next h => exact h
  · exact List.mem_cons_self _ _

theorem alookup_removeIfExists_ne {q p : Str} (h : q ≠ p) (fs : FS) :
    alookup q (fs.removeIfExists p).files = alookup q fs.files := by
  rw [FS.removeIfExists]
  split
  · exact alookup_eraseKey_ne h _
  · rfl

theorem alookup_writeFile_ne {q p : Str} (h : q ≠ p) (fs : FS) (c : List Nat) :
    alookup q (fs.writeFile p c).files = alookup q fs.files := by
  rw [FS.writeFile]
  show alookup q ((p, c) :: eraseKey p fs.files) = _
  rw [alookup, if_neg (fun hc => h hc.symm)]
  exact alookup_eraseKey_ne h _

theorem alookup_setmap_self {k : Str} (v : Str) {d : Dict}
    (hs : (alookup k d).isSome) :
    alookup k (d.map (fun e => if e.1 = k then (k, v) else e)) = some v := by
  induction d with
  | nil => simp [alookup] at hs
  | cons e es ih =>
    rw [alookup] at hs
    by_cases he : e.1 = k
    · simp [alookup, he]
    · rw [if_neg he] at hs
      simp only [List.map_cons, if_neg he, alookup, if_neg he]
      exact ih hs

theorem alookup_setmap_ne {j k : Str} (h : j ≠ k) (v : Str) (d : Dict) :
    alookup j (d.map (fun e => if e.1 = k then (k, v) else e)) = alookup j d := by
  induction d with
  | nil => rfl
  | cons e es ih =>
    by_cases he : e.1 = k
    · have hj : ¬ e.1 = j := fun hc => h (by rw [← hc, he])
      simp only [List.map_cons, if_pos he, alookup,
        if_neg (fun hc : k = j => h hc.symm), if_neg hj]
      exact ih
    · simp only [List.map_cons, if_neg he, alookup]
      by_cases hj : e.1 = j
      · rw [if_pos hj, if_pos hj]
      · rw [if_neg hj, if_neg hj]
        exact ih

theorem alookup_append_single_self {k : Str} (v : Str) {d : Dict}
    (hn : alookup k d = none) : alookup k (d ++ [(k, v)]) = some v := by
  induction d with
  | nil => simp [alookup]
  | cons e es ih =>
    rw [alookup] at hn
    by_cases he : e.1 = k
    · rw [if_pos he] at hn
      cases hn
    · rw [if_neg he] at hn
      simp only [List.cons_append, alookup, if_neg he]
      exact ih hn

theorem alookup_append_single_ne {j k : Str} (h : j ≠ k) (v : Str) (d : Dict) :
    alookup j (d ++ [(k, v)]) = alookup j d := by
  induction d with
  | nil =>
    show alookup j [(k, v)] = none
    rw [alookup, if_neg (fun hc : k = j => h hc.symm)]
    rfl
  | cons e es ih =>
    simp only [List.cons_append, alookup]
    split
    · rfl
    · exact ih

theorem alookup_dictSet_self (d : Dict) (k v : Str) :
    alookup k (dictSet d k v) = some v := by
  rw [dictSet]
  split
  · next hs => exact alookup_setmap_self v hs
  · next hs => exact alookup_append_single_self v (Option.not_isSome_iff_eq_none.mp hs)

theorem alookup_dictSet_ne {j k : Str} (h : j ≠ k) (d : Dict) (v : Str) :
    alookup j (dictSet d k v) = alookup j d := by
  rw [dictSet]
  split
  · exact alookup_setmap_ne h v d
  · exact alookup_append_single_ne h v d

theorem pyDictUpdate_cons (d : Dict) (e : Str × Str) (es : Dict) :
    pyDictUpdate d (e :: es) = pyDictUpdate (dictSet d e.1 e.2) es := rfl

theorem alookup_pyDictUpdate_notin {k : Str} {src : Dict}
    (h : k ∉ src.map Prod.fst) (d : Dict) :
    alookup k (pyDictUpdate d src) = alookup k d := by
  induction src generalizing d with
  | nil => rfl
  | cons e es ih =>
    rw [List.map_cons, List.mem_cons] at h
    push_neg at h
    rw [pyDictUpdate_cons, ih h.2, alookup_dictSet_ne h.1]

theorem alookup_pyDictUpdate_some {k v : Str} {src : Dict}
    (hnd : (src.map Prod.fst).Nodup) (h : alookup k src = some v) (d : Dict) :
    alookup k (pyDictUpdate d src) = some v := by
  induction src generalizing d with
  | nil => simp [alookup] at h
  | cons e es ih =>
    rw [List.map_cons, List.nodup_cons] at hnd
    rw [alookup] at h
    rw [pyDictUpdate_cons]
    by_cases he : e.1 = k
    · rw [if_pos he] at h
      cases h
      rw [alookup_pyDictUpdate_notin (he ▸ hnd.1), he, alookup_dictSet_self]
    · rw [if_neg he] at h
      exact ih hnd.2 h _

theorem pyReplaceOnce_of_isPrefixOf {old s : Str} (h : old.isPrefixOf s) (new : Str) :
    pyReplaceOnce old new s = new ++ s.drop old.length := by
  cases s with
  | nil =>
    rw [pyReplaceOnce, if_pos h]
    cases old with
    | nil => simp
    | cons c cs => simp [List.isPrefixOf] at h
  | cons c cs => rw [pyReplaceOnce, if_pos h]

theorem splitNetloc_error {u e : Str} (h : splitNetloc u = Except.error e) :
    e = str "Invalid IPv6 URL" := by
  rw [splitNetloc] at h
  split at h
  · split at h
    · cases h
      rfl
    · cases h
  · cases h

theorem urlparsePath_error {url e : Str} (h : urlparsePath url = Except.error e) :
    e = str "Invalid IPv6 URL" := by
  rw [urlparsePath] at h
  split at h
  · next heq => cases h; exact splitNetloc_error heq
  · cases h

theorem mem_le_foldr_max {i : Nat} {l : List Nat} (h : i ∈ l) :
    i ≤ l.foldr max 0 := by
  induction l with
  | nil => cases h
  | cons x xs ih =>
    rcases List.mem_cons.mp h with rfl | hx
    · exact le_max_left _ _
    · exact le_trans (ih hx) (le_max_right _ _)

theorem mem_keys_of_alookup_isSome {κ α : Type} [DecidableEq κ] {k : κ}
    {l : List (κ × α)} (h : (alookup k l).isSome) : k ∈ l.map Prod.fst := by
  induction l with
  | nil => simp [alookup] at h
  | cons e es ih =>
    rw [alookup] at h
    by_cases he : e.1 = k
    · rw [List.map_cons, List.mem_cons]
      exact Or.inl he.symm
    · rw [if_neg he] at h
      rw [List.map_cons, List.mem_cons]
      exact Or.inr (ih h)

theorem freshId_not_mem (st : DictStore) : freshId st ∉ st.entries.map Prod.fst := by
  intro h
  have := mem_le_foldr_max h
  rw [freshId] at this
  omega

theorem alookup_mapUpdate_ne {j t : Nat} (h : j ≠ t) (src : Dict)
    (l : List (Nat × Dict)) :
    alookup j (l.map (fun e => if e.1 = t then (e.1, pyDictUpdate e.2 src) else e))
      = alookup j l := by
  induction l with
  | nil => rfl
  | cons e es ih =>
    simp only [List.map_cons]
    by_cases he : e.1 = t
    · have hj : ¬ e.1 = j := fun hc => h (by rw [← hc, he])
      rw [if_pos he]
      simp only [alookup, if_neg hj]
      exact ih
    · rw [if_neg he]
      simp only [alookup]
      by_cases hj : e.1 = j
      · rw [if_pos hj, if_pos hj]
      · rw [if_neg hj, if_neg hj]
        exact ih

theorem alookup_storeUpdate_ne {j t : Nat} (h : j ≠ t) (st : DictStore) (s : Nat) :
    alookup j (storeUpdate st t s).entries = alookup j st.entries :=
  alookup_mapUpdate_ne h _ st.entries

theorem alookup_cons_ne {κ α : Type} [DecidableEq κ] {k j : κ} (h : k ≠ j)
    (v : α) (l : List (κ × α)) : alookup j ((k, v) :: l) = alookup j l := by
  rw [alookup, if_neg h]

theorem alookup_isSome_of_mem_keys {κ α : Type} [DecidableEq κ] {k : κ}
    {l : List (κ × α)} (h : k ∈ l.map Prod.fst) : (alookup k l).isSome := by
  induction l with
  | nil => simp at h
  | cons e es ih =>
    rw [List.map_cons, List.mem_cons] at h
    rw [alookup]
    by_cases he : e.1 = k
    · rw [if_pos he]
      rfl
    · rw [if_neg he]
      rcases h with h | h

      · exact absurd h.symm he
      · exact ih h

theorem probeExtension_eq_some {probe : ProbeOutcome} {guess : Str → Option Str}
    {e2 : Str} (h : probeExtension probe guess = some e2) :
    ∃ e0 ct, probe = ProbeOutcome.response ct
      ∧ guess (beforeSemicolon (ct.getD [])) = some e0 ∧ e2 = lowerStr e0 := by
  cases probe with
  | raised => simp [probeExtension] at h
  | response ct =>
    rw [probeExtension] at h
    cases hgz : guess (beforeSemicolon (ct.getD [])) with
    | none => rw [hgz] at h; cases h
    | some e0 =>
      rw [hgz] at h
      cases h
      exact ⟨e0, ct, rfl, hgz, rfl⟩

theorem get_ext_of_path_ext (probe : ProbeOutcome) (guess : Str → Option Str)
    {url p : Str} (hp : urlparsePath url = Except.ok p)
    (hne : (pySplitext p).2 ≠ []) :
    get_extension_from_url probe guess url = Except.ok (lowerStr (pySplitext p).2) := by
  have hpne : p ≠ [] := by
    intro hc
    rw [hc] at hne
    exact hne rfl
  simp only [get_extension_from_url, hp]
  rw [if_pos ⟨hpne, lowerStr_ne_nil hne⟩]

theorem goodGuess_guess0 : goodGuess guess0 := by
  intro ct e h
  simp only [guess0] at h
  split at h
  · cases h
    decide
  · split at h
    · cases h
      decide
    · cases h

/-! ### The claims -/

/-- C2: a URL beginning with the configured external base address
(`S3_PUBLIC_URL`, default `http://78.46.146.79:9000`) is rewritten by
substituting that prefix with the internal base address
(`S3_ENDPOINT_URL`, default `http://minio:9000`), the remainder of the URL
unchanged — exactly one substitution, at the start only, even if the
external address recurs later in the URL; a URL not beginning with the
external base address is left unchanged. -/
theorem claim_C2 (environ : Dict) (url : Str) :
    ((envGet environ (str "S3_PUBLIC_URL") (str "http://78.46.146.79:9000")).isPrefixOf url = true →
      rewriteUrl environ url
        = envGet environ (str "S3_ENDPOINT_URL") (str "http://minio:9000")
            ++ url.drop (envGet environ (str "S3_PUBLIC_URL") (str "http://78.46.146.79:9000")).length)
    ∧ ((envGet environ (str "S3_PUBLIC_URL") (str "http://78.46.146.79:9000")).isPrefixOf url = false →
      rewriteUrl environ url = url) := by
  constructor
  · intro h
    simp only [rewriteUrl]
    rw [if_pos h]
    exact pyReplaceOnce_of_isPrefixOf h _
  · intro h
    simp only [rewriteUrl]
    rw [if_neg]
    simp [h]

/-- Witness for C2 at the default environment: the external prefix is
substituted once at the start even though the external address recurs in
the query, and a URL with a different base is untouched. -/
theorem claim_C2_witness :
    rewriteUrl [] (str "http://78.46.146.79:9000/b/a.png?u=http://78.46.146.79:9000")
      = str "http://minio:9000"
          ++ (str "http://78.46.146.79:9000/b/a.png?u=http://78.46.146.79:9000").drop
              (str "http://78.46.146.79:9000").length
    ∧ rewriteUrl [] (str "http://elsewhere.example/x.png") = str "http://elsewhere.example/x.png" := by
  constructor
  · exact (claim_C2 [] _).1 (by decide)
  · exact (claim_C2 [] _).2 (by decide)

/-- C5: for every URL whose parsed path has a non-empty extension in the
`splitext` sense, `get_extension_from_url` returns that suffix lowercased,
separator included, whatever the case of the input — and the result is the
same for every probe outcome, so no `HEAD` probe is needed. -/
theorem claim_C5 (probe : ProbeOutcome) (guess : Str → Option Str) (url p : Str)
    (hp : urlparsePath url = Except.ok p) (hne : (pySplitext p).2 ≠ []) :
    get_extension_from_url probe guess url = Except.ok (lowerStr (pySplitext p).2) :=
  get_ext_of_path_ext probe guess hp hne

/-- Witness for C5: an uppercase suffix is returned lowercased even though
the probe raises. -/
theorem claim_C5_witness :
    get_extension_from_url ProbeOutcome.raised (fun _ => none) (str "http://x/a/b.PNG")
      = Except.ok (str ".png") := by
  have h := claim_C5 ProbeOutcome.raised (fun _ => none) (str "http://x/a/b.PNG")
    (str "/a/b.PNG") (by decide) (by decide)
  rw [h]
  decide

/-- C6: when the URL path yields no extension and the content-type
fallback produces nothing — because the `HEAD` probe raised (the exception
is swallowed and never reaches the caller) or because the content type has
no known mapping — `get_extension_from_url` raises a `ValueError` whose
message contains the offending URL.  A URL with no path at all satisfies
the first hypothesis, so it always reaches the probe step. -/
theorem claim_C6 (probe : ProbeOutcome) (guess : Str → Option Str) (url p : Str)
    (hp : urlparsePath url = Except.ok p) (hne : (pySplitext p).2 = [])
    (hprobe : probeExtension probe guess = none) :
    get_extension_from_url probe guess url
      = Except.error (PyErr.valueError
          (str "Could not determine file extension from URL: " ++ url))
    ∧ ∃ pre, str "Could not determine file extension from URL: " ++ url = pre ++ url := by
  constructor
  · simp only [get_extension_from_url, hp]
    rw [if_neg, hprobe]
    intro hc
    exact hc.2 (by rw [hne]; rfl)
  · exact ⟨_, rfl⟩

/-- Witness for C6: a bare-domain URL (empty path) with a raising probe
produces the error naming the URL: the probe's own exception is
swallowed. -/
theorem claim_C6_witness :
    get_extension_from_url ProbeOutcome.raised (fun _ => none) (str "http://host")
      = Except.error (PyErr.valueError
          (str "Could not determine file extension from URL: " ++ str "http://host")) :=
  (claim_C6 ProbeOutcome.raised (fun _ => none) (str "http://host") []
    (by decide) (by decide) (by decide)).1

/-- Counterexample to C3 as stated: `urlparse` is called outside the
`try` block, and for a URL with an unmatched IPv6 bracket it raises
`ValueError("Invalid IPv6 URL")` — an outcome that is neither a returned
extension nor the undeterminable-extension error (its message differs and,
in particular, does not name the URL). -/
theorem claim_C3_counterexample :
    get_extension_from_url ProbeOutcome.raised (fun _ => none) (str "http://[::1")
      = Except.error (PyErr.valueError (str "Invalid IPv6 URL"))
    ∧ str "Invalid IPv6 URL"
        ≠ str "Could not determine file extension from URL: " ++ str "http://[::1" := by
  decide

/-- C3 (amended): for every URL, `get_extension_from_url` either returns
a non-empty lowercase string beginning with the dot separator, or raises
the undeterminable-extension `ValueError` naming the URL, or — for URLs
whose netloc has mismatched IPv6 brackets — propagates the URL parser's
`ValueError("Invalid IPv6 URL")`; there is no other outcome.  (`goodGuess`
is the property of the `mimetypes` table that every extension it returns
starts with a dot.) -/
theorem claim_C3 (probe : ProbeOutcome) (guess : Str → Option Str) (url : Str)
    (hg : goodGuess guess) :
    (∃ ext, get_extension_from_url probe guess url = Except.ok ext
        ∧ ext ≠ [] ∧ ext.head? = some '.' ∧ isLowerStr ext)
    ∨ get_extension_from_url probe guess url
        = Except.error (PyErr.valueError
            (str "Could not determine file extension from URL: " ++ url))
    ∨ get_extension_from_url probe guess url
        = Except.error (PyErr.valueError (str "Invalid IPv6 URL")) := by
  cases hp : urlparsePath url with
  | error e =>
    right; right
    simp only [get_extension_from_url, hp]
    rw [urlparsePath_error hp]
  | ok path =>
    simp only [get_extension_from_url, hp]
    by_cases hcond : path ≠ [] ∧ lowerStr (pySplitext path).2 ≠ []
    · rw [if_pos hcond]
      left
      refine ⟨_, rfl, hcond.2, ?_, isLowerStr_lowerStr _⟩
      have hne : (pySplitext path).2 ≠ [] := by
        intro hc
        exact hcond.2 (by rw [hc]; rfl)
      rcases pySplitext_snd_head hne with ⟨t, ht⟩
      rw [ht]
      exact head?_lowerStr_dot t
    · rw [if_neg hcond]
      cases hpe : probeExtension probe guess with
      | some e2 =>
        left
        refine ⟨e2, rfl, ?_, ?_, ?_⟩
        · rcases probeExtension_eq_some hpe with ⟨e0, ct, _, hgz, rfl⟩
          exact lowerStr_ne_nil (hg _ _ hgz).1
        · rcases probeExtension_eq_some hpe with ⟨e0, ct, _, hgz, rfl⟩
          rcases hg _ _ hgz with ⟨hne0, hhd0⟩
          cases e0 with
          | nil => exact absurd rfl hne0
          | cons c t =>
            cases hhd0
            exact head?_lowerStr_dot t
        · rcases probeExtension_eq_some hpe with ⟨e0, ct, _, hgz, rfl⟩
          exact isLowerStr_lowerStr e0
      | none =>
        right; left
        rfl

/-- Witness for C3 (amended) with the concrete `mimetypes` fragment: the
probe's content type resolves through the table. -/
theorem claim_C3_witness :
    (∃ ext, get_extension_from_url (ProbeOutcome.response (some (str "image/jpeg"))) guess0
          (str "http://x/download") = Except.ok ext
        ∧ ext ≠ [] ∧ ext.head? = some '.' ∧ isLowerStr ext)
    ∨ get_extension_from_url (ProbeOutcome.response (some (str "image/jpeg"))) guess0
          (str "http://x/download")
        = Except.error (PyErr.valueError
            (str "Could not determine file extension from URL: " ++ str "http://x/download"))
    ∨ get_extension_from_url (ProbeOutcome.response (some (str "image/jpeg"))) guess0
          (str "http://x/download")
        = Except.error (PyErr.valueError (str "Invalid IPv6 URL")) :=
  claim_C3 (ProbeOutcome.response (some (str "image/jpeg"))) guess0
    (str "http://x/download") goodGuess_guess0

/-- Counterexample to C7 as stated: for `http://x/file.` the path-based
step yields the extension `"."` — `os.path.splitext` keeps a lone trailing
dot — which is non-empty, so it is returned immediately and resolution
does not fall through to the probe (the probe here raises, yet the call
succeeds). -/
theorem claim_C7_counterexample :
    urlparsePath (str "http://x/file.") = Except.ok (str "/file.")
    ∧ (pySplitext (str "/file.")).2 = str "."
    ∧ str "." ≠ ([] : Str)
    ∧ get_extension_from_url ProbeOutcome.raised (fun _ => none) (str "http://x/file.")
        = Except.ok (str ".") := by
  decide

/-- C7 (amended): for a URL whose parsed path ends in a trailing dot, the
path-based step yields either the one-character extension `"."` (when the
final segment has a non-dot character before the trailing dot) or the
empty extension (when it does not); in the former case the lone dot is
returned immediately, for every probe, and resolution does not fall
through to the content-type probe. -/
theorem claim_C7 (probe : ProbeOutcome) (guess : Str → Option Str) (url p q : Str)
    (hp : urlparsePath url = Except.ok p) (hq : p = q ++ [ '.' ]) :
    ((pySplitext p).2 = str "." ∨ (pySplitext p).2 = [])
    ∧ ((pySplitext p).2 = str "." →
        get_extension_from_url probe guess url = Except.ok (str ".")) := by
  constructor
  · rcases pySplitext_cases p with h0 | ⟨d, hd, he⟩
    · exact Or.inr h0
    · subst hq
      rw [rfindIdx_append_last] at hd
      cases hd
      left
      rw [he, List.drop_left]
      decide
  · intro hdot
    have h2 := get_ext_of_path_ext probe guess hp (by rw [hdot]; decide)
    rw [h2, hdot]
    decide

/-- Witness for C7 (amended) at `http://x/file.`: the extension is the
lone dot, returned with a raising probe. -/
theorem claim_C7_witness :
    ((pySplitext (str "/file.")).2 = str "." ∨ (pySplitext (str "/file.")).2 = [])
    ∧ get_extension_from_url ProbeOutcome.raised (fun _ => none) (str "http://x/file.")
        = Except.ok (str ".") := by
  have h := claim_C7 ProbeOutcome.raised (fun _ => none) (str "http://x/file.")
    (str "/file.") (str "/file") (by decide) (by decide)
  exact ⟨h.1, h.2 (by decide)⟩

/-- C8: the headers sent with the `GET` are the fixed default
`User-Agent` mapping merged with the caller-supplied headers, the caller's
value winning on any key collision (so the caller can override
`User-Agent`); with no custom headers, exactly the default mapping is
sent.  (`download_file` consults its `GET` oracle at
`requestHeaders custom_headers` and nowhere else.) -/
theorem claim_C8 (c : Dict) (k : Str) (hnd : (c.map Prod.fst).Nodup) :
    (∀ v, alookup k c = some v → alookup k (requestHeaders (some c)) = some v)
    ∧ (alookup k c = none → alookup k (requestHeaders (some c)) = alookup k defaultHeaders)
    ∧ requestHeaders none = defaultHeaders := by
  refine ⟨?_, ?_, rfl⟩
  · intro v hv
    rw [requestHeaders]
    have hcne : c ≠ [] := by
      intro hc
      subst hc
      cases hv
    rw [if_pos hcne]
    exact alookup_pyDictUpdate_some hnd hv _
  · intro hv
    rw [requestHeaders]
    by_cases hce : c = []
    · rw [if_neg (fun hne => hne hce)]
    · rw [if_pos hce]
      refine alookup_pyDictUpdate_notin ?_ _
      intro hm
      have := alookup_isSome_of_mem_keys hm
      rw [hv] at this
      cases this

/-- Witness for C8: the caller's `User-Agent` overrides the default, the
caller's extra key is present, and an uninvolved key falls back to the
default mapping. -/
theorem claim_C8_witness :
    alookup (str "User-Agent") (requestHeaders (some customSample)) = some (str "curl/8.0")
    ∧ alookup (str "Authorization") (requestHeaders (some customSample))
        = some (str "Bearer t")
    ∧ alookup (str "Accept") (requestHeaders (some customSample))
        = alookup (str "Accept") defaultHeaders
    ∧ requestHeaders none = defaultHeaders := by
  refine ⟨?_, ?_, ?_, ?_⟩
  · exact (claim_C8 customSample (str "User-Agent") (by decide)).1 _ (by decide)
  · exact (claim_C8 customSample (str "Authorization") (by decide)).1 _ (by decide)
  · exact (claim_C8 customSample (str "Accept") (by decide)).2.1 (by decide)
  · exact (claim_C8 customSample (str "Accept") (by decide)).2.2

/-- C9: the caller-supplied `custom_headers` dict object is never
mutated: the merge writes into the freshly allocated `headers` literal, so
after the header block the object `custom_headers` refers to holds exactly
the entries it held before. -/
theorem claim_C9 (st : DictStore) (cid : Nat)
    (h : (alookup cid st.entries).isSome) :
    alookup cid ((mergeHeadersAlloc st (some cid)).2).entries
      = alookup cid st.entries := by
  have hfresh : freshId st ≠ cid := by
    intro hc
    exact freshId_not_mem st (hc ▸ mem_keys_of_alookup_isSome h)
  rw [mergeHeadersAlloc]
  split
  · show alookup cid (storeUpdate _ (freshId st) cid).entries = _
    rw [alookup_storeUpdate_ne (fun hc => hfresh hc.symm)]
    exact alookup_cons_ne hfresh _ _
  · exact alookup_cons_ne hfresh _ _

/-- Witness for C9 at a one-object store: the custom dict's contents are
unchanged by the merge. -/
theorem claim_C9_witness :
    alookup 1 ((mergeHeadersAlloc st9 (some 1)).2).entries = alookup 1 st9.entries :=
  claim_C9 st9 1 (by decide)

/-- C1: when the `GET` request or the write phase fails, `download_file`
leaves no file at the computed local path (any partially written file is
deleted, even on the paths where none was created) and propagates the
original exception unchanged. -/
theorem claim_C1 (environ : Dict) (probe : ProbeOutcome) (guess : Str → Option Str)
    (file_id : Str) (get : Dict → GetOutcome) (write : WriteOutcome)
    (url storage_path : Str) (custom_headers : Option Dict) (fs : FS) (ext : Str)
    (e : PyErr)
    (hext : get_extension_from_url probe guess (rewriteUrl environ url) = Except.ok ext)
    (herr : fetchError (get (requestHeaders custom_headers)) write = some e) :
    (download_file environ probe guess file_id get write url storage_path
        custom_headers fs).1 = Except.error e
    ∧ (download_file environ probe guess file_id get write url storage_path
        custom_headers fs).2.existsFile (posixJoin storage_path (file_id ++ ext)) = false := by
  simp only [download_file, hext]
  cases hg : get (requestHeaders custom_headers) with
  | netFail e1 =>
    rw [hg] at herr
    simp only [fetchError] at herr
    cases herr
    simp only [hg]
    exact ⟨trivial, FS.existsFile_removeIfExists _ _⟩
  | response status chunks =>
    rw [hg] at herr
    simp only [fetchError] at herr
    simp only [hg]
    cases hrs : raiseForStatus status with
    | some e2 =>
      rw [hrs] at herr
      cases herr
      simp only [hrs]
      exact ⟨trivial, FS.existsFile_removeIfExists _ _⟩
    | none =>
      rw [hrs] at herr
      simp only [hrs]
      cases write with
      | ok => cases herr
      | openFail e3 =>
        cases herr
        exact ⟨rfl, FS.existsFile_removeIfExists _ _⟩
      | failAfter n e3 =>
        cases herr
        exact ⟨rfl, FS.existsFile_removeIfExists _ _⟩

/-- Witness for C1: a mid-stream network failure at a filesystem that
already holds a partially written file at the computed path; afterwards
the file is gone and the original exception surfaces. -/
theorem claim_C1_witness :
    (download_file [] ProbeOutcome.raised (fun _ => none) (str "u1")
        (fun _ => GetOutcome.netFail (PyErr.requestError 7)) WriteOutcome.ok
        (str "http://host/a.bin") (str "/tmp/") none
        { dirs := [], files := [(str "/tmp/u1.bin", [104])] }).1
      = Except.error (PyErr.requestError 7)
    ∧ (download_file [] ProbeOutcome.raised (fun _ => none) (str "u1")
        (fun _ => GetOutcome.netFail (PyErr.requestError 7)) WriteOutcome.ok
        (str "http://host/a.bin") (str "/tmp/") none
        { dirs := [], files := [(str "/tmp/u1.bin", [104])] }).2.existsFile
          (posixJoin (str "/tmp/") (str "u1" ++ str ".bin")) = false :=
  claim_C1 [] ProbeOutcome.raised (fun _ => none) (str "u1")
    (fun _ => GetOutcome.netFail (PyErr.requestError 7)) WriteOutcome.ok
    (str "http://host/a.bin") (str "/tmp/") none
    { dirs := [], files := [(str "/tmp/u1.bin", [104])] } (str ".bin")
    (PyErr.requestError 7) (by decide) (by decide)

/-- Counterexample to C4 as stated: `raise_for_status` raises only for
4xx/5xx responses; a `304` response is not in the 2xx range, yet the
download succeeds and a path is returned. -/
theorem claim_C4_counterexample :
    ¬ (200 ≤ 304 ∧ 304 ≤ 299)
    ∧ (download_file [] ProbeOutcome.raised (fun _ => none) (str "u1")
        (fun _ => GetOutcome.response 304 [[104]]) WriteOutcome.ok
        (str "http://host/a.bin") (str "/tmp/") none fs0).1
      = Except.ok (str "/tmp/u1.bin") := by
  decide

/-- C4 (amended): after a successful extension resolution,
`download_file` raises `HTTPError` exactly for response status codes in
4xx/5xx (and then writes nothing and returns no path), and for any
other status — all of 2xx, but also 1xx/3xx — it does not raise at this
step: with a clean write it returns the local path. -/
theorem claim_C4 (environ : Dict) (probe : ProbeOutcome) (guess : Str → Option Str)
    (file_id : Str) (write : WriteOutcome) (url storage_path : Str)
    (custom_headers : Option Dict) (fs : FS) (ext : Str) (status : Nat)
    (chunks : List (List Nat))
    (hext : get_extension_from_url probe guess (rewriteUrl environ url) = Except.ok ext) :
    (400 ≤ status ∧ status < 600 →
      (download_file environ probe guess file_id
          (fun _ => GetOutcome.response status chunks) write url storage_path
          custom_headers fs).1 = Except.error (PyErr.httpError status))
    ∧ (¬ (400 ≤ status ∧ status < 600) →
      (download_file environ probe guess file_id
          (fun _ => GetOutcome.response status chunks) WriteOutcome.ok url storage_path
          custom_headers fs).1
        = Except.ok (posixJoin storage_path (file_id ++ ext))) := by
  constructor
  · intro h45
    simp only [download_file, hext, raiseForStatus]
    rw [if_pos h45]
  · intro h45
    simp only [download_file, hext, raiseForStatus]
    rw [if_neg h45]

/-- Witness for C4 (amended): a 404 raises `HTTPError`, a 200 returns the
path. -/
theorem claim_C4_witness :
    (download_file [] ProbeOutcome.raised (fun _ => none) (str "u1")
        (fun _ => GetOutcome.response 404 [[104]]) WriteOutcome.ok
        (str "http://host/a.bin") (str "/tmp/") none fs0).1
      = Except.error (PyErr.httpError 404)
    ∧ (download_file [] ProbeOutcome.raised (fun _ => none) (str "u1")
        (fun _ => GetOutcome.response 200 [[104]]) WriteOutcome.ok
        (str "http://host/a.bin") (str "/tmp/") none fs0).1
      = Except.ok (posixJoin (str "/tmp/") (str "u1" ++ str ".bin")) := by
  constructor
  · exact (claim_C4 [] ProbeOutcome.raised (fun _ => none) (str "u1") WriteOutcome.ok
      (str "http://host/a.bin") (str "/tmp/") none fs0 (str ".bin") 404 [[104]]
      (by decide)).1 (by decide)
  · exact (claim_C4 [] ProbeOutcome.raised (fun _ => none) (str "u1") WriteOutcome.ok
      (str "http://host/a.bin") (str "/tmp/") none fs0 (str ".bin") 200 [[104]]
      (by decide)).2 (by decide)

theorem download_file_dirs (environ : Dict) (probe : ProbeOutcome)
    (guess : Str → Option Str) (file_id : Str) (get : Dict → GetOutcome)
    (write : WriteOutcome) (url storage_path : Str) (custom_headers : Option Dict)
    (fs : FS) :
    (download_file environ probe guess file_id get write url storage_path
        custom_headers fs).2.dirs = (fs.mkdirs storage_path).dirs := by
  cases hgx : get_extension_from_url probe guess (rewriteUrl environ url) with
  | error e => simp only [download_file, hgx]
  | ok ext =>
    cases hg : get (requestHeaders custom_headers) with
    | netFail e1 =>
      simp only [download_file, hgx, hg]
      exact FS.dirs_removeIfExists _ _
    | response status chunks =>
      cases hrs : raiseForStatus status with
      | some e2 =>
        simp only [download_file, hgx, hg, hrs]
        exact FS.dirs_removeIfExists _ _
      | none =>
        cases write with
        | ok =>
          simp only [download_file, hgx, hg, hrs]
          exact FS.dirs_writeFile _ _ _
        | openFail e3 =>
          simp only [download_file, hgx, hg, hrs]
          exact FS.dirs_removeIfExists _ _
        | failAfter n e3 =>
          simp only [download_file, hgx, hg, hrs]
          exact (FS.dirs_removeIfExists _ _).trans (FS.dirs_writeFile _ _ _)

/-- C10: `download_file` creates the storage directory first and never
removes it: on every outcome the directory exists afterwards; when
extension resolution fails, the filesystem is the entry filesystem plus
that directory — no file is ever created and the `GET`/write oracles are
never consulted (the result is the same for all of them); and on every
failure only the file at the computed local path is removed, every other
file being untouched. -/
theorem claim_C10 (environ : Dict) (probe : ProbeOutcome) (guess : Str → Option Str)
    (file_id : Str) (get : Dict → GetOutcome) (write : WriteOutcome)
    (url storage_path : Str) (custom_headers : Option Dict) (fs : FS) :
    storage_path ∈ (download_file environ probe guess file_id get write url storage_path
        custom_headers fs).2.dirs
    ∧ (∀ e, get_extension_from_url probe guess (rewriteUrl environ url) = Except.error e →
        download_file environ probe guess file_id get write url storage_path custom_headers fs
          = (Except.error e, fs.mkdirs storage_path)
        ∧ (fs.mkdirs storage_path).files = fs.files)
    ∧ (∀ ext e, get_extension_from_url probe guess (rewriteUrl environ url) = Except.ok ext →
        (download_file environ probe guess file_id get write url storage_path
            custom_headers fs).1 = Except.error e →
        ∀ q, q ≠ posixJoin storage_path (file_id ++ ext) →
          alookup q (download_file environ probe guess file_id get write url storage_path
              custom_headers fs).2.files = alookup q fs.files) := by
  refine ⟨?_, ?_, ?_⟩
  · rw [download_file_dirs]
    exact FS.mem_dirs_mkdirs fs storage_path
  · intro e hgx
    simp only [download_file, hgx]
    exact ⟨trivial, FS.files_mkdirs fs storage_path⟩
  · intro ext e hgx hres q hq
    simp only [download_file, hgx] at hres ⊢
    cases hg : get (requestHeaders custom_headers) with
    | netFail e1 =>
      simp only [hg]
      rw [alookup_removeIfExists_ne hq, FS.files_mkdirs]
    | response status chunks =>
      simp only [hg] at hres ⊢
      cases hrs : raiseForStatus status with
      | some e2 =>
        simp only [hrs]
        rw [alookup_removeIfExists_ne hq, FS.files_mkdirs]
      | none =>
        simp only [hrs] at hres ⊢
        cases write with
        | ok => cases hres
        | openFail e3 =>
          rw [alookup_removeIfExists_ne hq, FS.files_mkdirs]
        | failAfter n e3 =>
          rw [alookup_removeIfExists_ne hq, alookup_writeFile_ne hq, FS.files_mkdirs]

/-- Witness for C10: a failing extension resolution (bare-domain URL,
raising probe) leaves exactly the created directory, no file and an
unconsulted `GET`; and a 500 failure leaves an unrelated file in place. -/
theorem claim_C10_witness :
    str "/tmp/" ∈ (download_file [] ProbeOutcome.raised (fun _ => none) (str "u1")
        (fun _ => GetOutcome.response 500 [[104]]) WriteOutcome.ok
        (str "http://host/a.bin") (str "/tmp/") none
        { dirs := [], files := [(str "/tmp/other.txt", [1])] }).2.dirs
    ∧ download_file [] ProbeOutcome.raised (fun _ => none) (str "u2")
        (fun _ => GetOutcome.netFail (PyErr.requestError 0)) WriteOutcome.ok
        (str "http://host") (str "/tmp/") none fs0
      = (Except.error (PyErr.valueError
          (str "Could not determine file extension from URL: " ++ str "http://host")),
         fs0.mkdirs (str "/tmp/"))
    ∧ alookup (str "/tmp/other.txt")
        (download_file [] ProbeOutcome.raised (fun _ => none) (str "u1")
          (fun _ => GetOutcome.response 500 [[104]]) WriteOutcome.ok
          (str "http://host/a.bin") (str "/tmp/") none
          { dirs := [], files := [(str "/tmp/other.txt", [1])] }).2.files
      = alookup (str "/tmp/other.txt")
          (({ dirs := [], files := [(str "/tmp/other.txt", [1])] } : FS)).files := by
  refine ⟨?_, ?_, ?_⟩
  · exact (claim_C10 [] ProbeOutcome.raised (fun _ => none) (str "u1")
      (fun _ => GetOutcome.response 500 [[104]]) WriteOutcome.ok
      (str "http://host/a.bin") (str "/tmp/") none
      { dirs := [], files := [(str "/tmp/other.txt", [1])] }).1
  · exact ((claim_C10 [] ProbeOutcome.raised (fun _ => none) (str "u2")
      (fun _ => GetOutcome.netFail (PyErr.requestError 0)) WriteOutcome.ok
      (str "http://host") (str "/tmp/") none fs0).2.1 _ (by decide)).1
  · exact (claim_C10 [] ProbeOutcome.raised (fun _ => none) (str "u1")
      (fun _ => GetOutcome.response 500 [[104]]) WriteOutcome.ok
      (str "http://host/a.bin") (str "/tmp/") none
      { dirs := [], files := [(str "/tmp/other.txt", [1])] }).2.2 (str ".bin")
      (PyErr.httpError 500) (by decide) (by decide) (str "/tmp/other.txt") (by decide)
